import Mathlib

/-!
Shallow embedding of the concurrent image-generation core of
`Animalchannel.py` (red-fox-generator), with theorems checking the
natural-language specification against the code.

Conventions of the embedding:
* Python strings are modelled as `List Char` (wrapped back into `String`
  at the interface where convenient); `re.sub(pat, rep, s, flags=IGNORECASE)`
  with a literal pattern is modelled as leftmost, non-overlapping,
  ASCII-case-insensitive replacement that does not rescan the
  replacement text, exactly as `re.sub` behaves on the literal patterns
  used by the code.
* External calls (the image provider, the uploader, the sequential
  fallback `process_image`) are oracles passed in as functions; the code
  around them (retry loops, batching, result assembly) is translated
  line by line.
* Python truthiness of the heterogeneous values the driver stores
  (`None`, strings, lists of URLs) is modelled by the `PyVal` type and
  its `truthy` function.
-/

namespace RedFox

/-- `MAX_CONCURRENT = 10` (Animalchannel.py line 18). -/
def MAX_CONCURRENT : Nat := 10

/-- `MAX_IMAGES_PER_MIN = 15` (Animalchannel.py line 19). -/
def MAX_IMAGES_PER_MIN : Nat := 15

/-- `BATCH_SIZE = 5` (Animalchannel.py line 20). -/
def BATCH_SIZE : Nat := 5

/-! ### RateSanitizer (`sanitize_prompt`, Animalchannel.py lines 605-626) -/

/-- ASCII lower-casing, the case-folding relevant to the all-ASCII
violation table under `re.IGNORECASE`. -/
def lowerA (c : Char) : Char :=
  if 'A' ≤ c ∧ c ≤ 'Z' then Char.ofNat (c.toNat + 32) else c

/-- Does `pat` (already lower-case) match at the head of `s`,
case-insensitively? -/
def isPrefixCI (pat s : List Char) : Bool :=
  (s.take pat.length).map lowerA == pat

/-- Does `pat` occur anywhere in `s`, case-insensitively? -/
def containsCI (pat : List Char) : List Char → Bool
  | [] => pat.isEmpty
  | c :: rest => isPrefixCI pat (c :: rest) || containsCI pat rest

/-- Fuel-indexed worker for `replaceCI`; the fuel is the length of the
string, so it never runs out. -/
def replaceCIAux (pat rep : List Char) : Nat → List Char → List Char
  | 0, s => s
  | _ + 1, [] => []
  | fuel + 1, c :: rest =>
    if !pat.isEmpty && isPrefixCI pat (c :: rest) then
      rep ++ replaceCIAux pat rep fuel ((c :: rest).drop pat.length)
    else
      c :: replaceCIAux pat rep fuel rest

/-- `re.sub(pat, rep, s, flags=re.IGNORECASE)` for a literal pattern:
replace every leftmost, non-overlapping, case-insensitive occurrence of
`pat` in `s` by `rep`, never rescanning `rep`. -/
def replaceCI (pat rep s : List Char) : List Char :=
  replaceCIAux pat rep s.length s

/-- The `violations` table of `sanitize_prompt`, in the source's
(insertion) order, which is the order Python iterates the dict. -/
def violations : List (List Char × List Char) :=
  [("beats up".data, "overcomes".data),
   ("subdue".data, "stops".data),
   ("confronts".data, "approaches".data),
   ("fight".data, "challenges peacefully".data),
   ("overpower".data, "defeats non-violently".data),
   ("attacks".data, "confronts safely".data),
   ("violence".data, "conflict".data),
   ("violent".data, "intense".data),
   ("punch".data, "touch".data),
   ("kick".data, "nudge".data),
   ("hit".data, "tap".data),
   ("hurt".data, "surprise".data),
   ("harm".data, "affect".data)]

/-- `sanitize_prompt` on `List Char`: apply each substitution of the
table in order to the running string. -/
def sanitizeL (s : List Char) : List Char :=
  violations.foldl (fun acc pr => replaceCI pr.1 pr.2 acc) s

/-- `sanitize_prompt` (Animalchannel.py lines 605-626). -/
def sanitize_prompt (s : String) : String :=
  ⟨sanitizeL s.data⟩

/-- `s` contains none of the violation terms (case-insensitively). -/
def noViolations (s : List Char) : Bool :=
  violations.all fun pr => !containsCI pr.1 s

/-! ### Python values and truthiness

The driver stores heterogeneous Python values in its result list:
`None`, strings (URLs and the `"Skipped"` sentinel) and lists of
URL-or-None (the `variation_urls` returned by `process_image_async`).
`truthy` is Python truthiness on these values. -/

inductive PyVal where
  | none
  | str (s : String)
  | list (l : List PyVal)

/-- Python truthiness: `None` is falsy, a string is truthy iff nonempty,
a list is truthy iff nonempty. -/
def truthy : PyVal → Bool
  | .none => false
  | .str s => !(s == "")
  | .list l => !l.isEmpty

/-- The `"Skipped"` sentinel the driver appends for failed scenes. -/
def skippedVal : PyVal := .str "Skipped"

/-- Is a value the `"Skipped"` sentinel? -/
def isSkipped : PyVal → Bool
  | .str s => s == "Skipped"
  | _ => false

/-! ### RetryableImageTask
(`generate_image_async_with_retries`, Animalchannel.py lines 751-790)

The provider call `generate_async` is an oracle
`gen : Nat → String → Except E α` giving, for each retry index, the
outcome of calling the provider with the prompt used on that attempt. -/

/-- `max_retries = 3` in `generate_image_async_with_retries`
(Animalchannel.py line 753) and in `generate_image` (line 630). -/
def max_retries : Nat := 3

/-- The prompt used on retry index `retry` (0-based, as in
`for retry in range(max_retries)`): the raw prompt on the first attempt,
the sanitized prompt from the second attempt on, and from the third
attempt on additionally `current_prompt[:1000] + " (simplified)"`
(Animalchannel.py lines 760-767). -/
def attemptPrompt (prompt : String) (retry : Nat) : String :=
  if retry = 0 then prompt
  else if retry = 1 then sanitize_prompt prompt
  else ⟨(sanitize_prompt prompt).data.take 1000 ++ " (simplified)".data⟩

/-- The retry loop of `generate_image_async_with_retries`, iterating
over the retry indices of `range(max_retries)`.  Returns the loop's
result (`some (.ok r)` on success, `some (.error e)` when the last
attempt re-raises its error `e`) together with the list of backoff
sleeps `5 * (retry + 1)` performed between attempts
(Animalchannel.py lines 756-790). -/
def retryOver (maxR : Nat) (gen : Nat → String → Except E α) (prompt : String) :
    List Nat → Option (Except E α) × List Nat
  | [] => (Option.none, [])
  | retry :: rest =>
    match gen retry (attemptPrompt prompt retry) with
    | .ok r => (some (.ok r), [])
    | .error e =>
      if retry < maxR - 1 then
        let tail := retryOver maxR gen prompt rest
        (tail.1, 5 * (retry + 1) :: tail.2)
      else (some (.error e), [])

/-- `generate_image_async_with_retries` (Animalchannel.py lines
751-790), with the provider call as an oracle. -/
def generate_image_async_with_retries (gen : Nat → String → Except E α)
    (prompt : String) : Option (Except E α) × List Nat :=
  retryOver max_retries gen prompt (List.range max_retries)

/-- The backoff slept after a failed attempt before attempt
`attemptNumber + 1`: `wait_time = 5 * (retry + 1)` with
`attemptNumber = retry + 1`, for every failure — the code classifies
nothing (Animalchannel.py line 784). -/
def backoffSeconds (attemptNumber : Nat) : Nat := 5 * attemptNumber

/-- Modelled from the spec (§4.2), for comparison with the code: the
spec's classification-dependent backoff — `5 × attempt_number` for a
generic failure, `30 × attempt_number` for a rate-limited failure. -/
def backoffSeconds_spec (attemptNumber : Nat) (rateLimited : Bool) : Nat :=
  if rateLimited then 30 * attemptNumber else 5 * attemptNumber

/-- The permit count of the semaphore created by
`generate_images_concurrently`: always `MAX_CONCURRENT`
(Animalchannel.py line 808); the code keeps no rate-limit flag. -/
def semaphoreLimit : Nat := MAX_CONCURRENT

/-- Modelled from the spec (§4.5 step 1), for comparison with the code:
effective concurrency is `MAX_CONCURRENT`, halved by integer division
with a floor of 1 when the `RateLimitFlag` is set. -/
def effectiveConcurrency_spec (rateLimitFlag : Bool) : Nat :=
  if rateLimitFlag then max (MAX_CONCURRENT / 2) 1 else MAX_CONCURRENT

/-! ### `process_image_async` (Animalchannel.py lines 671-749)

Generation is an oracle outcome `Except E (List β)` (the variation
image bytes on success); each upload is an oracle
`upload : Nat → β → Option String` (`none` models the upload raising
after its own retries).  A failed upload keeps its position as `None`
in `variation_urls`; a failed generation makes the whole task return
`(classifier, None)`. -/

def process_image_async (classifier : Nat) (genOutcome : Except E (List β))
    (upload : Nat → β → Option String) : Nat × PyVal :=
  match genOutcome with
  | .error _ => (classifier, PyVal.none)
  | .ok variationsData =>
    (classifier,
     PyVal.list ((List.range variationsData.length).zip variationsData |>.map
       fun iv => match upload iv.1 iv.2 with
         | some url => PyVal.str url
         | Option.none => PyVal.none))

/-! ### BatchScheduler (`generate_images_concurrently`,
Animalchannel.py lines 792-882)

Each task's outcome at the gather is an oracle
`outcome : T → Except E (Nat × PyVal)`: `.ok (classifier, value)` when
the task coroutine returned (`process_image_async` itself converts its
own failures to `(classifier, None)`), `.error e` when an exception
reached the gather for that task.  `gatherFail b = some e` models
`asyncio.gather` itself raising `e` for batch number `b`. -/

/-- Fuel-indexed worker for `chunks`. -/
def chunksAux (n : Nat) : Nat → List T → List (List T)
  | _, [] => []
  | 0, l => [l]
  | fuel + 1, l => l.take n :: chunksAux n fuel (l.drop n)

/-- `[lst[i:i+n] for i in range(0, len(lst), n)]` — the batch split of
Animalchannel.py line 812. -/
def chunks (n : Nat) (l : List T) : List (List T) :=
  chunksAux n l.length l

/-- The per-result conversion of the scheduler's result-processing loop
(Animalchannel.py lines 854-867): an exception becomes the placeholder
`(0, None)`, a returned pair is kept as is. -/
def convertResult : Except E (Nat × PyVal) → Nat × PyVal
  | .error _ => (0, PyVal.none)
  | .ok v => v

/-- One batch of the scheduler: the gather either raises (`gatherFail =
some e`, turning every task of the batch into an exception result,
Animalchannel.py lines 846-850) or yields each task's own outcome; the
result-processing loop then converts each entry. -/
def processBatch (outcome : T → Except E (Nat × PyVal)) (gatherFail : Option E)
    (batch : List T) : List (Nat × PyVal) :=
  let batchResults : List (Except E (Nat × PyVal)) :=
    match gatherFail with
    | some e => batch.map fun _ => .error e
    | none => batch.map outcome
  batchResults.map convertResult

/-- The inter-batch sleep `(60 / MAX_IMAGES_PER_MIN) * len(batch)`
(Animalchannel.py line 877). -/
def sleepAfter (batch : List T) : ℚ :=
  (60 / (MAX_IMAGES_PER_MIN : ℚ)) * batch.length

/-- The scheduler's batch loop: batches strictly in sequence,
accumulating converted results, sleeping after every batch whose
1-based number is below the total (Animalchannel.py lines 824-879). -/
def schedulerGo (outcome : T → Except E (Nat × PyVal)) (gatherFail : Nat → Option E)
    (totalBatches : Nat) : Nat → List (List T) → List (Nat × PyVal) × List ℚ
  | _, [] => ([], [])
  | batchNum, batch :: rest =>
    let converted := processBatch outcome (gatherFail batchNum) batch
    let tail := schedulerGo outcome gatherFail totalBatches (batchNum + 1) rest
    (converted ++ tail.1,
     if batchNum < totalBatches then sleepAfter batch :: tail.2 else tail.2)

/-- `generate_images_concurrently` (Animalchannel.py lines 792-882):
split the tasks into contiguous batches of `BATCH_SIZE` and run the
batch loop; returns the accumulated `all_results` and the inter-batch
sleeps. -/
def generate_images_concurrently (outcome : T → Except E (Nat × PyVal))
    (gatherFail : Nat → Option E) (tasks : List T) :
    List (Nat × PyVal) × List ℚ :=
  let batches := chunks BATCH_SIZE tasks
  schedulerGo outcome gatherFail batches.length 1 batches

/-! ### PipelineDriver (`process_story_generation_with_scenes`,
Animalchannel.py lines 1030-1203)

The whole concurrent run (with its 600 s `asyncio.wait_for` deadline)
is an oracle `att : Nat → AttemptResult` giving the outcome of each
attempt of the driver's retry loop; `fb` is the oracle for the
sequential fallback's `process_image` calls. -/

/-- Outcome of one attempt of `asyncio.run(run_with_timeout())`:
the deadline elapsed, some other exception, or the scheduler's result
list. -/
inductive AttemptResult where
  | timeout
  | failure
  | success (results : List (Nat × PyVal))

/-- How the driver's retry loop exits: `timedOut` when the final
attempt re-raises `TimeoutError`, `failed` when it re-raises a generic
exception, `ok` when some attempt succeeded and broke out. -/
inductive LoopExit where
  | timedOut
  | failed
  | ok (results : List (Nat × PyVal))

/-- `max_retries = 2` of the driver's retry loop
(Animalchannel.py line 1121). -/
def driver_max_retries : Nat := 2

/-- `retry_delay = 5` seconds (Animalchannel.py line 1122). -/
def retry_delay : Nat := 5

/-- The driver's retry loop over `range(max_retries)`
(Animalchannel.py lines 1124-1155): break on success; on
`asyncio.TimeoutError` or a generic exception sleep `retry_delay` and
retry unless this was the final attempt, in which case the error is
re-raised.  Returns the exit and the sleeps performed. -/
def driverRetryGo (maxR : Nat) (att : Nat → AttemptResult) :
    List Nat → LoopExit × List Nat
  | [] => (.failed, [])
  | attempt :: rest =>
    match att attempt with
    | .success r => (.ok r, [])
    | .timeout =>
      if attempt < maxR - 1 then
        let tail := driverRetryGo maxR att rest
        (tail.1, retry_delay :: tail.2)
      else (.timedOut, [])
    | .failure =>
      if attempt < maxR - 1 then
        let tail := driverRetryGo maxR att rest
        (tail.1, retry_delay :: tail.2)
      else (.failed, [])

/-- `results_dict = {int(scene): url for scene, url in results if
scene != 0}` followed by `results_dict.get(i)` (Animalchannel.py line
1158): filter out the `(0, None)` placeholders; on duplicate keys the
last entry wins, as in a Python dict comprehension. -/
def resultsDict (results : List (Nat × PyVal)) (i : Nat) : Option PyVal :=
  (((results.filter fun p => p.1 != 0).reverse).find? fun p => p.1 == i).map Prod.snd

/-- The driver's result assembly (Animalchannel.py lines 1158-1167):
for each scene `i` in `1..n`, the dict entry if present and truthy,
otherwise the `"Skipped"` sentinel. -/
def assembleImages (results : List (Nat × PyVal)) (n : Nat) : List PyVal :=
  (List.range' 1 n).map fun i =>
    match resultsDict results i with
    | some v => if truthy v then v else skippedVal
    | Option.none => skippedVal

/-- The sequential fallback loop (Animalchannel.py lines 1180-1186):
one `process_image` call per scene, `"Skipped"` for a falsy return and
for an exception. -/
def fallbackImages (fb : Nat → Except E PyVal) (n : Nat) : List PyVal :=
  (List.range' 1 n).map fun i =>
    match fb i with
    | .ok v => if truthy v then v else skippedVal
    | .error _ => skippedVal

/-- `process_story_generation_with_scenes` from the retry loop on
(Animalchannel.py lines 1119-1186), for `n` prompts: on success
assemble the ordered result list; on a timed-out retry loop the
`except TimeoutError` handler only logs, leaving `images = []`; on a
generic scheduler failure the `except Exception` handler runs the
sequential fallback.  Returns the image list and the retry-loop
sleeps. -/
def process_story_generation_with_scenes (att : Nat → AttemptResult)
    (fb : Nat → Except E PyVal) (n : Nat) : List PyVal × List Nat :=
  let loop := driverRetryGo driver_max_retries att (List.range driver_max_retries)
  match loop.1 with
  | .ok results => (assembleImages results n, loop.2)
  | .timedOut => ([], loop.2)
  | .failed => (fallbackImages fb n, loop.2)

/-! ## General lemmas about the embedded code -/

/-- If `pat` does not occur in `s` (case-insensitively), a substitution
pass leaves `s` unchanged. -/
theorem replaceCIAux_of_not_contains {pat rep : List Char} :
    ∀ (fuel : Nat) (s : List Char), s.length ≤ fuel →
      containsCI pat s = false → replaceCIAux pat rep fuel s = s := by
  intro fuel
  induction fuel with
  | zero =>
    intro s _ _
    cases s <;> rfl
  | succ fuel ih =>
    intro s hlen hcon
    cases s with
    | nil => rfl
    | cons c rest =>
      have hor := hcon
      simp only [containsCI, Bool.or_eq_false_iff] at hor
      simp only [replaceCIAux, hor.1, Bool.and_false, Bool.false_eq_true,
        if_false]
      rw [ih rest (by simpa using Nat.le_of_succ_le_succ hlen) hor.2]

/-- A string free of every violation term is a fixed point of
`sanitizeL`. -/
theorem sanitizeL_of_noViolations (s : List Char)
    (h : noViolations s = true) : sanitizeL s = s := by
  have h' : ∀ pr ∈ violations, containsCI pr.1 s = false := by
    intro pr hpr
    have := (List.all_eq_true.mp h) pr hpr
    simpa using this
  show violations.foldl (fun acc pr => replaceCI pr.1 pr.2 acc) s = s
  have : ∀ (prs : List (List Char × List Char)),
      (∀ pr ∈ prs, containsCI pr.1 s = false) →
      prs.foldl (fun acc pr => replaceCI pr.1 pr.2 acc) s = s := by
    intro prs
    induction prs with
    | nil => intro _; rfl
    | cons pr rest ih =>
      intro hall
      have hstep : replaceCI pr.1 pr.2 s = s :=
        replaceCIAux_of_not_contains s.length s (Nat.le_refl _)
          (hall pr (by simp))
      simp only [List.foldl_cons, hstep]
      exact ih fun q hq => hall q (by simp [hq])
  exact this violations h'

/-- The chunks of `chunksAux` concatenate back to the original list. -/
theorem chunksAux_join {T : Type} {n : Nat} (hn : 0 < n) :
    ∀ (fuel : Nat) (l : List T), l.length ≤ fuel →
      (chunksAux n fuel l).flatten = l := by
  intro fuel
  induction fuel with
  | zero =>
    intro l hlen
    have : l = [] := List.eq_nil_of_length_eq_zero (Nat.le_zero.mp hlen)
    subst this; rfl
  | succ fuel ih =>
    intro l hlen
    cases l with
    | nil => rfl
    | cons c rest =>
      simp only [chunksAux, List.flatten_cons]
      rw [ih _ (by simp only [List.length_drop, List.length_cons] at hlen ⊢; omega)]
      exact List.take_append_drop n (c :: rest)

/-- `chunks` is a partition: joining the batches restores the task
list. -/
theorem chunks_join {T : Type} {n : Nat} (hn : 0 < n) (l : List T) :
    (chunks n l).flatten = l :=
  chunksAux_join hn l.length l (Nat.le_refl _)

/-- Every chunk produced by `chunksAux` has length at most `n`. -/
theorem chunksAux_length_le {T : Type} {n : Nat} (hn : 0 < n) :
    ∀ (fuel : Nat) (l : List T), l.length ≤ fuel →
      ∀ b ∈ chunksAux n fuel l, b.length ≤ n := by
  intro fuel
  induction fuel with
  | zero =>
    intro l hlen b hb
    have : l = [] := List.eq_nil_of_length_eq_zero (Nat.le_zero.mp hlen)
    subst this; simp [chunksAux] at hb
  | succ fuel ih =>
    intro l hlen b hb
    cases l with
    | nil => simp [chunksAux] at hb
    | cons c rest =>
      simp only [chunksAux, List.mem_cons] at hb
      rcases hb with rfl | hb
      · exact List.length_take_le n (c :: rest)
      · exact ih _ (by simp only [List.length_drop, List.length_cons] at hlen ⊢; omega) b hb

/-- Every batch of `chunks n l` has length at most `n`. -/
theorem chunks_length_le {T : Type} {n : Nat} (hn : 0 < n) (l : List T) :
    ∀ b ∈ chunks n l, b.length ≤ n :=
  chunksAux_length_le hn l.length l (Nat.le_refl _)

/-- The scheduler's accumulated results are the concatenation of every
batch processed independently (with its own 1-based batch number): the
results of one batch are a function of that batch's tasks and outcomes
alone. -/
theorem schedulerGo_results {E T : Type} (outcome : T → Except E (Nat × PyVal))
    (gatherFail : Nat → Option E) (tb : Nat) :
    ∀ (bs : List (List T)) (bn : Nat),
      (schedulerGo outcome gatherFail tb bn bs).1
        = (List.zipWith (fun n b => processBatch outcome (gatherFail n) b)
            (List.range' bn bs.length) bs).flatten := by
  intro bs
  induction bs with
  | nil => intro bn; rfl
  | cons b rest ih =>
    intro bn
    simp only [schedulerGo, List.length_cons, List.range'_succ,
      List.zipWith_cons_cons, List.flatten_cons, ih (bn + 1)]

/-- The scheduler sleeps exactly after each non-final batch.  The
invariant `bn + bs.length = tb + 1` holds on the real call, where `bn`
starts at 1 and `tb` is the total number of batches. -/
theorem schedulerGo_sleeps {E T : Type} (outcome : T → Except E (Nat × PyVal))
    (gatherFail : Nat → Option E) (tb : Nat) :
    ∀ (bs : List (List T)) (bn : Nat), bn + bs.length = tb + 1 →
      (schedulerGo outcome gatherFail tb bn bs).2
        = bs.dropLast.map sleepAfter := by
  intro bs
  induction bs with
  | nil => intro bn _; rfl
  | cons b rest ih =>
    intro bn hinv
    cases rest with
    | nil =>
      have hbn : ¬ bn < tb := by
        simp only [List.length_cons, List.length_nil] at hinv; omega
      simp [schedulerGo, hbn]
    | cons r rs =>
      have hbn : bn < tb := by
        simp only [List.length_cons] at hinv; omega
      have htail := ih (bn + 1) (by
        simp only [List.length_cons] at hinv ⊢; omega)
      have hstep : (schedulerGo outcome gatherFail tb bn (b :: r :: rs)).2
          = if bn < tb then
              sleepAfter b :: (schedulerGo outcome gatherFail tb (bn + 1) (r :: rs)).2
            else (schedulerGo outcome gatherFail tb (bn + 1) (r :: rs)).2 := rfl
      rw [hstep, if_pos hbn, htail]
      simp

/-- Entry `i` of the driver's assembled image list is the scene-`(1+i)`
lookup: the ledger is ordered by scene index regardless of the order of
`results`. -/
theorem assembleImages_get? (results : List (Nat × PyVal)) (n i : Nat)
    (h : i < n) :
    (assembleImages results n).get? i
      = some (match resultsDict results (1 + i) with
              | some v => if truthy v then v else skippedVal
              | Option.none => skippedVal) := by
  simp only [assembleImages, List.get?_map]
  rw [List.get?_range' 1 1 (by simpa using h)]
  simp

/-- The assembled image list always has one entry per scene. -/
theorem assembleImages_length (results : List (Nat × PyVal)) (n : Nat) :
    (assembleImages results n).length = n := by
  simp [assembleImages]

/-- Every assembled entry is either the sentinel or a truthy value. -/
theorem assembleImages_all (results : List (Nat × PyVal)) (n : Nat) :
    (assembleImages results n).all (fun v => isSkipped v || truthy v) = true := by
  rw [List.all_eq_true]
  intro v hv
  simp only [assembleImages, List.mem_map] at hv
  obtain ⟨i, _, rfl⟩ := hv
  cases hres : resultsDict results i with
  | none => simp [hres, skippedVal, isSkipped]
  | some w =>
    by_cases ht : truthy w = true
    · simp [hres, ht]
    · simp [hres, ht, skippedVal, isSkipped]

/-- The fallback image list always has one entry per scene. -/
theorem fallbackImages_length {E : Type} (fb : Nat → Except E PyVal) (n : Nat) :
    (fallbackImages fb n).length = n := by
  simp [fallbackImages]

/-- Every fallback entry is either the sentinel or a truthy value. -/
theorem fallbackImages_all {E : Type} (fb : Nat → Except E PyVal) (n : Nat) :
    (fallbackImages fb n).all (fun v => isSkipped v || truthy v) = true := by
  rw [List.all_eq_true]
  intro v hv
  simp only [fallbackImages, List.mem_map] at hv
  obtain ⟨i, _, rfl⟩ := hv
  cases hres : fb i with
  | error e => simp [hres, skippedVal, isSkipped]
  | ok w =>
    by_cases ht : truthy w = true
    · simp [hres, ht]
    · simp [hres, ht, skippedVal, isSkipped]

/-! ## Claim theorems -/

/-- C4, counterexample: the claim says that after a rate-limit signal a
subsequently scheduled batch runs with effective concurrency
`MAX_CONCURRENT` halved (floor 1), i.e. 5; but the scheduler creates
its semaphore with `MAX_CONCURRENT = 10` permits unconditionally — the
code contains no `RateLimitFlag` at all. -/
theorem C4_no_rate_limit_flag_cex :
    semaphoreLimit = 10 ∧ effectiveConcurrency_spec true = 5 ∧
      semaphoreLimit ≠ effectiveConcurrency_spec true := by
  decide

/-- C4, amended: the code keeps no process-wide rate-limit flag; the
batch scheduler always creates its semaphore with the fixed
`MAX_CONCURRENT = 10` permits, so the halving to 5 that the spec
describes for the flag-set state never happens. -/
theorem C4_fixed_concurrency :
    semaphoreLimit = MAX_CONCURRENT ∧ MAX_CONCURRENT = 10 ∧
      ∀ flag : Bool, effectiveConcurrency_spec flag
        = if flag then 5 else semaphoreLimit := by
  decide

/-- C5, counterexample: with every attempt failing, the retry loop of
`generate_image_async_with_retries` sleeps `[5, 10]` — `5 ×
attempt_number` — whatever the failures were; the spec's rate-limited
schedule `[30, 60]` is never produced, because the code classifies no
failure as rate-limited. -/
theorem C5_backoff_unclassified_cex :
    (generate_image_async_with_retries
       (fun i _ => (Except.error i : Except Nat Unit)) "p").2 = [5, 10]
    ∧ [backoffSeconds_spec 1 true, backoffSeconds_spec 2 true] = [30, 60]
    ∧ (generate_image_async_with_retries
         (fun i _ => (Except.error i : Except Nat Unit)) "p").2
        ≠ [backoffSeconds_spec 1 true, backoffSeconds_spec 2 true] := by
  refine ⟨rfl, rfl, ?_⟩
  intro h
  rw [show (generate_image_async_with_retries
    (fun i _ => (Except.error i : Except Nat Unit)) "p").2 = [5, 10] from rfl] at h
  simp [backoffSeconds_spec] at h

/-- C5, amended: the code classifies no failure; the backoff slept
before attempt `n + 1` is `5 × n` seconds for every failure — for any
errors whatsoever the retry loop's sleeps are
`[backoffSeconds 1, backoffSeconds 2] = [5, 10]`. -/
theorem C5_backoff_uniform (E' α' : Type) (errf : Nat → String → E')
    (p : String) :
    (generate_image_async_with_retries
       (fun i s => (Except.error (errf i s) : Except E' α')) p).2
      = [backoffSeconds 1, backoffSeconds 2] := rfl

/-- C6, counterexample: the sanitizer is not idempotent.
`sanitize("attacks") = "confronts safely"` (the replacement itself
contains the violation term `"confronts"`), and a second pass rewrites
it further to `"approaches safely"`. -/
theorem C6_not_idempotent_cex :
    sanitize_prompt "attacks" = "confronts safely"
    ∧ sanitize_prompt (sanitize_prompt "attacks") = "approaches safely"
    ∧ sanitize_prompt (sanitize_prompt "attacks") ≠ sanitize_prompt "attacks" := by
  refine ⟨by decide, by decide, by decide⟩

/-- C6, amended: the sanitizer is idempotent exactly on the inputs
whose sanitized form is free of every violation term: if
`sanitize(x)` contains no violation term then
`sanitize(sanitize(x)) = sanitize(x)`.  (It is not idempotent in
general: a replacement such as `"attacks" → "confronts safely"`
reintroduces the violation term `"confronts"`.) -/
theorem C6_idempotent_on_clean (x : String)
    (h : noViolations (sanitize_prompt x).data = true) :
    sanitize_prompt (sanitize_prompt x) = sanitize_prompt x := by
  show (⟨sanitizeL (sanitize_prompt x).data⟩ : String) = sanitize_prompt x
  rw [sanitizeL_of_noViolations _ h]

/-- Witness for `C6_idempotent_on_clean` at `x = "hello"`. -/
theorem C6_idempotent_on_clean_witness :
    noViolations (sanitize_prompt "hello").data = true
    ∧ sanitize_prompt (sanitize_prompt "hello") = sanitize_prompt "hello" :=
  ⟨by decide, C6_idempotent_on_clean "hello" (by decide)⟩

/-- C7: the retryable generation task tries at most `max_retries = 3`
times; attempt 1 uses the raw prompt, attempt 2 the sanitized prompt,
attempt 3 the sanitized prompt hard-capped at 1000 characters with the
`" (simplified)"` marker appended; and when the final attempt fails,
the loop re-raises that last error, after backoffs of 5 and 10
seconds. -/
theorem C7_retry_schedule (E' α' : Type) (gen : Nat → String → Except E' α')
    (p : String) (e0 e1 e2 : E')
    (h0 : gen 0 p = .error e0)
    (h1 : gen 1 (sanitize_prompt p) = .error e1)
    (h2 : gen 2 ⟨(sanitize_prompt p).data.take 1000 ++ " (simplified)".data⟩
            = .error e2) :
    generate_image_async_with_retries gen p = (some (.error e2), [5, 10]) := by
  show retryOver 3 gen p (List.range 3) = _
  rw [show List.range 3 = [0, 1, 2] from rfl]
  simp only [retryOver, attemptPrompt]
  norm_num
  rw [h0, h1, h2]

/-- Witness for `C7_retry_schedule` with a concrete always-failing
provider. -/
theorem C7_retry_schedule_witness :
    generate_image_async_with_retries
      (fun i _ => (Except.error i : Except Nat Unit)) "p"
      = (some (.error 2), [5, 10]) :=
  C7_retry_schedule Nat Unit (fun i _ => Except.error i) "p" 0 1 2 rfl rfl rfl

/-- C1, counterexample: when every attempt of the concurrent run times
out, the driver's `except TimeoutError` handler only logs, so the
result list is left empty — length 0 instead of the input length 20,
even though the fallback oracle would have succeeded. -/
theorem C1_timeout_empty_cex :
    (process_story_generation_with_scenes (fun _ => AttemptResult.timeout)
       (fun _ => (Except.ok (PyVal.str "url") : Except Unit PyVal)) 20).1 = []
    ∧ ([] : List PyVal).length ≠ 20 :=
  ⟨rfl, by decide⟩

/-- C1, amended: the driver's result list has exactly one entry per
scene — each entry the scene's truthy result value or the `"Skipped"`
sentinel — on the success path and on the sequential-fallback path; but
when the concurrent path times out on every attempt the list is left
empty (length 0), not length N. -/
theorem C1_length_and_sentinel (E' : Type) (att : Nat → AttemptResult)
    (fb : Nat → Except E' PyVal) (n : Nat) :
    (process_story_generation_with_scenes att fb n).1.length
      = (match (driverRetryGo driver_max_retries att
                  (List.range driver_max_retries)).1 with
         | LoopExit.timedOut => 0
         | _ => n)
    ∧ (process_story_generation_with_scenes att fb n).1.all
        (fun v => isSkipped v || truthy v) = true := by
  cases hexit : (driverRetryGo driver_max_retries att (List.range driver_max_retries)).1 with
  | timedOut =>
    exact ⟨by simp [process_story_generation_with_scenes, hexit],
           by simp [process_story_generation_with_scenes, hexit]⟩
  | failed =>
    exact ⟨by simp [process_story_generation_with_scenes, hexit,
                    fallbackImages_length],
           by simp [process_story_generation_with_scenes, hexit,
                    fallbackImages_all]⟩
  | ok results =>
    exact ⟨by simp [process_story_generation_with_scenes, hexit,
                    assembleImages_length],
           by simp [process_story_generation_with_scenes, hexit,
                    assembleImages_all]⟩

/-- C2, counterexample: with every attempt timing out, the sequential
fallback is never run — the driver returns the empty list even though
the fallback would have produced a full list of URLs. -/
theorem C2_no_fallback_on_timeout_cex :
    (process_story_generation_with_scenes (fun _ => AttemptResult.timeout)
       (fun _ => (Except.ok (PyVal.str "url") : Except Unit PyVal)) 3).1 = []
    ∧ fallbackImages (fun _ => (Except.ok (PyVal.str "url") : Except Unit PyVal)) 3
        = [PyVal.str "url", PyVal.str "url", PyVal.str "url"]
    ∧ (process_story_generation_with_scenes (fun _ => AttemptResult.timeout)
         (fun _ => (Except.ok (PyVal.str "url") : Except Unit PyVal)) 3).1
        ≠ fallbackImages (fun _ => (Except.ok (PyVal.str "url") : Except Unit PyVal)) 3 := by
  refine ⟨rfl, rfl, ?_⟩
  intro h
  rw [show (process_story_generation_with_scenes (fun _ => AttemptResult.timeout)
       (fun _ => (Except.ok (PyVal.str "url") : Except Unit PyVal)) 3).1 = [] from rfl,
      show fallbackImages (fun _ => (Except.ok (PyVal.str "url") : Except Unit PyVal)) 3
        = [PyVal.str "url", PyVal.str "url", PyVal.str "url"] from rfl] at h
  exact List.noConfusion h

/-- C2, amended: the driver makes up to `max_retries = 2` attempts of
the whole concurrent run with a fixed `retry_delay = 5` s between them;
when every attempt fails with a generic scheduler exception it falls
back to the strictly sequential per-scene loop; but when every attempt
ends in deadline-exceeded, the re-raised `TimeoutError` is caught and
only logged — no fallback runs and the result list stays empty. -/
theorem C2_retry_then_fallback (E' : Type) (fb : Nat → Except E' PyVal) (n : Nat) :
    process_story_generation_with_scenes (fun _ => AttemptResult.failure) fb n
      = (fallbackImages fb n, [retry_delay])
    ∧ process_story_generation_with_scenes (fun _ => AttemptResult.timeout) fb n
      = ([], [retry_delay]) :=
  ⟨rfl, rfl⟩

/-- C3: per-task errors are fully contained.  (i) The scheduler's
result list is the concatenation of each batch processed independently
(later batches never see an earlier batch's exceptions).  (ii) Within a
batch, entry `i` of the processed results is a function of task `i`'s
own outcome alone: an exception at the gather becomes the failed
outcome `(0, None)` for that position only, a returned pair is kept,
and a gather-level failure (`gfe = some e`) converts every task of that
batch to the failed outcome instead of propagating. -/
theorem C3_error_containment (E' T' : Type)
    (outcome : T' → Except E' (Nat × PyVal)) (gatherFail : Nat → Option E')
    (tasks : List T') :
    (generate_images_concurrently outcome gatherFail tasks).1
      = (List.zipWith (fun bn b => processBatch outcome (gatherFail bn) b)
          (List.range' 1 (chunks BATCH_SIZE tasks).length)
          (chunks BATCH_SIZE tasks)).flatten
    ∧ ∀ (gfe : Option E') (batch : List T') (i : Nat),
        (processBatch outcome gfe batch).get? i
          = (batch.get? i).map fun t =>
              match gfe with
              | some _ => (0, PyVal.none)
              | Option.none => convertResult (outcome t) := by
  constructor
  · exact schedulerGo_results outcome gatherFail _ _ 1
  · intro gfe batch i
    cases gfe with
    | none =>
      show ((batch.map outcome).map convertResult).get? i = _
      rw [List.get?_map, List.get?_map]
      cases batch.get? i <;> rfl
    | some e =>
      show ((batch.map fun _ => (Except.error e : Except E' (Nat × PyVal))).map
        convertResult).get? i = _
      rw [List.get?_map, List.get?_map]
      cases batch.get? i <;> rfl

/-- C8: the scheduler partitions the tasks into contiguous batches of
at most `BATCH_SIZE` that concatenate back to the input, sleeps
`sleepAfter` (= `(60 / MAX_IMAGES_PER_MIN) × len(batch)`) after every
batch except the last, and for 15 tasks produces exactly 3 batches with
sleeps `[20, 20]` seconds. -/
theorem C8_batching_and_sleeps (E' T' : Type)
    (outcome : T' → Except E' (Nat × PyVal)) (gatherFail : Nat → Option E')
    (tasks : List T') :
    (chunks BATCH_SIZE tasks).flatten = tasks
    ∧ (∀ b ∈ chunks BATCH_SIZE tasks, b.length ≤ BATCH_SIZE)
    ∧ (generate_images_concurrently outcome gatherFail tasks).2
        = (chunks BATCH_SIZE tasks).dropLast.map sleepAfter
    ∧ (chunks BATCH_SIZE (List.range 15)).length = 3
    ∧ (generate_images_concurrently
         (fun t : Nat => (Except.ok (t + 1, PyVal.none) : Except Unit (Nat × PyVal)))
         (fun _ => Option.none) (List.range 15)).2 = [20, 20] := by
  refine ⟨chunks_join (by decide) tasks, chunks_length_le (by decide) tasks,
          ?_, by decide, ?_⟩
  · exact schedulerGo_sleeps outcome gatherFail _ _ 1 (by omega)
  · rw [show (generate_images_concurrently
         (fun t : Nat => (Except.ok (t + 1, PyVal.none) : Except Unit (Nat × PyVal)))
         (fun _ => Option.none) (List.range 15)).2
        = (chunks BATCH_SIZE (List.range 15)).dropLast.map sleepAfter from
        schedulerGo_sleeps _ _ _ _ 1 (by omega)]
    show List.map sleepAfter _ = _
    norm_num [chunks, chunksAux, sleepAfter, MAX_IMAGES_PER_MIN, BATCH_SIZE,
      List.dropLast]

/-- Witness for `C8_batching_and_sleeps`: the batch-size bound applied
to a concrete batch of a concrete run. -/
theorem C8_batching_and_sleeps_witness :
    ([0, 1, 2, 3, 4] : List Nat) ∈ chunks BATCH_SIZE (List.range 15)
    ∧ ([0, 1, 2, 3, 4] : List Nat).length ≤ BATCH_SIZE :=
  ⟨by decide,
   (C8_batching_and_sleeps Unit Nat
      (fun t => (Except.ok (t + 1, PyVal.none) : Except Unit (Nat × PyVal)))
      (fun _ => Option.none) (List.range 15)).2.1 [0, 1, 2, 3, 4] (by decide)⟩

/-- C9, counterexample: a task whose exception reaches the batch join
is recorded as the placeholder `(0, None)` — index 0, not the
originating scene index 2 — and the driver then treats scene 2 as
missing (`"Skipped"`). -/
theorem C9_placeholder_index_cex :
    (generate_images_concurrently
       (fun t : Nat × Unit =>
         if t.1 = 2 then (Except.error () : Except Unit (Nat × PyVal))
         else .ok (t.1, PyVal.str "u"))
       (fun _ => Option.none) [(1, ()), (2, ())]).1
      = [(1, PyVal.str "u"), (0, PyVal.none)]
    ∧ (0 : Nat) ≠ 2
    ∧ assembleImages [(1, PyVal.str "u"), (0, PyVal.none)] 2
        = [PyVal.str "u", skippedVal] :=
  ⟨rfl, by decide, rfl⟩

/-- C9, amended: an outcome produced by the task itself — including its
own caught failures — carries the originating index, and the final
ledger is assembled in scene-index order 1..N regardless of the order
of `results`; but an exception that reaches the batch join is converted
to the placeholder `(0, None)`, whose index does not match the
originating task. -/
theorem C9_index_and_ordering (E' β' : Type) :
    (∀ (c : Nat) (e : E') (upl : Nat → β' → Option String),
       process_image_async c (Except.error e : Except E' (List β')) upl
         = (c, PyVal.none))
    ∧ (∀ e : E', convertResult (Except.error e : Except E' (Nat × PyVal))
         = (0, PyVal.none))
    ∧ ∀ (results : List (Nat × PyVal)) (n i : Nat), i < n →
        (assembleImages results n).get? i
          = some (match resultsDict results (1 + i) with
                  | some v => if truthy v then v else skippedVal
                  | Option.none => skippedVal) :=
  ⟨fun _ _ _ => rfl, fun _ => rfl,
   fun results n i h => assembleImages_get? results n i h⟩

/-- Witness for `C9_index_and_ordering`: entry 1 of the assembled
ledger is scene 2's result. -/
theorem C9_index_and_ordering_witness :
    (1 : Nat) < 2
    ∧ (assembleImages [(2, PyVal.str "u")] 2).get? 1 = some (PyVal.str "u") :=
  ⟨by decide, (C9_index_and_ordering Unit Unit).2.2 [(2, PyVal.str "u")] 2 1 (by decide)⟩

/-- C10: when generation succeeds with its 4 variations but uploads
fail, `process_image_async` still returns `(classifier, variation_urls)`
with each failed upload kept in position as `None`; with all 4 uploads
failed it returns the list of four `None`s, which is truthy, so the
driver's assembly stores the list of `None`s for that scene rather than
the `"Skipped"` sentinel. -/
theorem C10_upload_failures_kept_in_position (β' : Type) (c : Nat)
    (vars : List β') (upl : Nat → β' → Option String)
    (h4 : vars.length = 4) :
    process_image_async c (Except.ok vars : Except Unit (List β')) upl
      = (c, PyVal.list (((List.range 4).zip vars).map fun iv =>
          match upl iv.1 iv.2 with
          | some url => PyVal.str url
          | Option.none => PyVal.none))
    ∧ process_image_async c (Except.ok vars : Except Unit (List β'))
        (fun _ _ => Option.none)
      = (c, PyVal.list [PyVal.none, PyVal.none, PyVal.none, PyVal.none])
    ∧ truthy (PyVal.list [PyVal.none, PyVal.none, PyVal.none, PyVal.none]) = true
    ∧ assembleImages [(1, PyVal.list [PyVal.none, PyVal.none, PyVal.none, PyVal.none])] 1
      = [PyVal.list [PyVal.none, PyVal.none, PyVal.none, PyVal.none]] := by
  obtain ⟨a, b, cc, d, rfl⟩ : ∃ a b cc d, vars = [a, b, cc, d] := by
    cases vars with
    | nil => simp only [List.length_nil] at h4; omega
    | cons a t1 =>
      cases t1 with
      | nil => simp only [List.length_cons, List.length_nil] at h4; omega
      | cons b t2 =>
        cases t2 with
        | nil => simp only [List.length_cons, List.length_nil] at h4; omega
        | cons cc t3 =>
          cases t3 with
          | nil => simp only [List.length_cons, List.length_nil] at h4; omega
          | cons d t4 =>
            cases t4 with
            | nil => exact ⟨a, b, cc, d, rfl⟩
            | cons e t5 =>
              simp only [List.length_cons, List.length_nil] at h4; omega
  exact ⟨rfl, rfl, rfl, rfl⟩

/-- Witness for `C10_upload_failures_kept_in_position` on a concrete
4-variation task whose uploads all fail. -/
theorem C10_witness :
    ([(), (), (), ()] : List Unit).length = 4
    ∧ process_image_async 7 (Except.ok [(), (), (), ()] : Except Unit (List Unit))
        (fun _ _ => Option.none)
      = (7, PyVal.list [PyVal.none, PyVal.none, PyVal.none, PyVal.none]) :=
  ⟨by decide,
   (C10_upload_failures_kept_in_position Unit 7 [(), (), (), ()]
      (fun _ _ => Option.none) (by decide)).2.1⟩

end RedFox
